import Mathlib

/-!
Shallow embedding of the trivia API backend (`backend/flaskr/__init__.py` and
`backend/models.py`) and proofs about its claims.

The HTTP layer is modelled as pure functions from a storage snapshot and a
parsed request to a response.  Flask's `abort` calls and Python exceptions are
modelled with `Except`: each handler has a `_try` body mirroring the code
inside its `try:` block, and the outer definition mirrors the `except`
clause together with the app's registered error handlers (400/404/422).
An exception that escapes every handler (the code paths that touch the
request body outside any `try:`) is modelled as `Outcome.uncaught`.
-/

/-- JSON values, as produced by `flask.jsonify` / consumed by `request.get_json()`. -/
inductive Json where
  | null : Json
  | bool (b : Bool) : Json
  | num (n : Int) : Json
  | str (s : String) : Json
  | arr (elems : List Json) : Json
  | obj (fields : List (String × Json)) : Json

/-- Serialise a string as a JSON string literal (quote and backslash escaped). -/
def renderStringLit (s : String) : String :=
  "\"" ++ String.join (s.data.map (fun c =>
    if c == '"' then "\\\"" else if c == '\\' then "\\\\" else String.mk [c])) ++ "\""

mutual

/-- Serialise a JSON value to bytes, modelling the fixed serialisation the app
applies to every response body. -/
def renderJson : Json → String
  | .null => "null"
  | .bool b => if b then "true" else "false"
  | .num n => toString n
  | .str s => renderStringLit s
  | .arr elems => "[" ++ renderJsonList elems ++ "]"
  | .obj fields => "\x7b" ++ renderJsonFields fields ++ "\x7d"

/-- Serialise the elements of a JSON array, comma separated. -/
def renderJsonList : List Json → String
  | [] => ""
  | [x] => renderJson x
  | x :: xs => renderJson x ++ ", " ++ renderJsonList xs

/-- Serialise the fields of a JSON object, comma separated. -/
def renderJsonFields : List (String × Json) → String
  | [] => ""
  | [kv] => renderStringLit kv.1 ++ ": " ++ renderJson kv.2
  | kv :: kvs => renderStringLit kv.1 ++ ": " ++ renderJson kv.2 ++ ", " ++ renderJsonFields kvs

end

/-- First binding of a key in a parsed JSON object (Python dicts parsed from
JSON have unique keys, so first = last). Models `dict` lookup. -/
def jLookup (fields : List (String × Json)) (k : String) : Option Json :=
  match fields with
  | [] => none
  | (k', v) :: rest => if k' == k then some v else jLookup rest k

/-- Characters Python's `str.strip()` removes. -/
def isPySpace (c : Char) : Bool :=
  c == ' ' || c == '\t' || c == '\n' || c == '\r' || c == '\x0b' || c == '\x0c'

/-- Python's `str.strip()`: drop leading and trailing whitespace. -/
def pyStrip (s : String) : String :=
  String.mk (((s.data.dropWhile isPySpace).reverse.dropWhile isPySpace).reverse)

/-- Python list slicing `l[start:stop]` with possibly negative indices:
a negative index counts from the end; both endpoints are clamped to the list. -/
def pythonSlice (l : List α) (start stop : Int) : List α :=
  let n : Int := l.length
  let s : Int := if start < 0 then max (n + start) 0 else min start n
  let e : Int := if stop < 0 then max (n + stop) 0 else min stop n
  (l.drop s.toNat).take (e - s).toNat

/-- SQL `LIKE` pattern matching over characters: `%` matches any sequence,
`_` matches any single character, and a backslash escapes the next pattern
character (PostgreSQL's default escape). A trailing lone backslash matches
nothing (PostgreSQL rejects such patterns; the app never builds one). -/
def likeMatchF : Nat → List Char → List Char → Bool
  | 0, _, _ => false
  | _ + 1, [], t => t.isEmpty
  | fuel + 1, '%' :: ps, t =>
    likeMatchF fuel ps t ||
      (match t with
       | [] => false
       | _ :: ts => likeMatchF fuel ('%' :: ps) ts)
  | fuel + 1, '_' :: ps, t =>
    (match t with
     | [] => false
     | _ :: ts => likeMatchF fuel ps ts)
  | fuel + 1, '\\' :: ps, t =>
    (match ps, t with
     | p :: ps', d :: ts => p == d && likeMatchF fuel ps' ts
     | _, _ => false)
  | fuel + 1, c :: ps, t =>
    (match t with
     | [] => false
     | d :: ts => c == d && likeMatchF fuel ps ts)

/-- Entry point: every recursive step of `likeMatchF` shrinks
`pattern.length + text.length` by at least one, so this fuel is enough for
the recursion never to run dry. -/
def likeMatch (p t : List Char) : Bool := likeMatchF (p.length + t.length + 1) p t

/-- Lower-case a character sequence, modelling the case folding of `ILIKE`. -/
def lowerChars (l : List Char) : List Char := l.map Char.toLower

/-- `column ILIKE '%term%'` as the code issues it in `search_questions`:
case-insensitive `LIKE` against the pattern `"%" + term + "%"`. -/
def ilikeContains (term text : String) : Bool :=
  likeMatch (lowerChars ('%' :: term.data ++ ['%'])) (lowerChars text.data)

/-- Case-insensitive substring containment — the spec's wording for search
("contains the term as a case-insensitive substring"), used to compare the
spec's description with what the code's `ILIKE` pattern actually does. -/
def specContainsCI (needle hay : String) : Bool :=
  (List.range (hay.data.length + 1)).any
    (fun i => (lowerChars needle.data).isPrefixOf ((lowerChars hay.data).drop i))

/-- Decimal digit parsing for Python's `int(...)`: every character must be a
digit and at least one digit must be present. -/
def pyDigits? (cs : List Char) : Option Nat :=
  if cs.isEmpty then none
  else if cs.all Char.isDigit then
    some (cs.foldl (fun n c => n * 10 + (c.toNat - '0'.toNat)) 0)
  else none

/-- Python's `int(s)` on a string: surrounding whitespace is ignored, an
optional sign precedes the digits, and anything else raises (modelled as
`none`). -/
def pyIntString? (s : String) : Option Int :=
  match (pyStrip s).data with
  | '-' :: rest => (pyDigits? rest).map (fun n => -(n : Int))
  | '+' :: rest => (pyDigits? rest).map (fun n => (n : Int))
  | cs => (pyDigits? cs).map (fun n => (n : Int))

/-- Python's case-sensitive `needle in hay` substring test on strings. -/
def strContains (needle hay : String) : Bool :=
  (List.range (hay.data.length + 1)).any
    (fun i => needle.data.isPrefixOf (hay.data.drop i))

/-- A row of the `questions` table (`models.py`): the `category` column is
declared `String`, `id` is the integer primary key. -/
structure Question where
  id : Nat
  question : String
  answer : String
  category : String
  difficulty : Int
deriving DecidableEq

/-- A row of the `categories` table (`models.py`). -/
structure Category where
  id : Nat
  type : String
deriving DecidableEq

/-- `Question.format()`: the dict the API serialises for one question. -/
def Question.format (q : Question) : Json :=
  .obj [("id", .num q.id), ("question", .str q.question), ("answer", .str q.answer),
        ("category", .str q.category), ("difficulty", .num q.difficulty)]

/-- A snapshot of the storage collaborator: the two tables. -/
structure Store where
  questions : List Question
  categories : List Category

/-- `Category.query.order_by(Category.type)`: sort rows by the `type` column. -/
def categoriesByType (l : List Category) : List Category :=
  List.insertionSort (fun a b => a.type ≤ b.type) l

/-- `Question.query.order_by(Question.id)`: sort rows by the primary key. -/
def questionsById (l : List Question) : List Question :=
  List.insertionSort (fun a b => a.id ≤ b.id) l

/-- The `categories` dict every listing endpoint builds:
`{category.id: category.type for category in categories}`, with the integer
keys serialised as strings by `jsonify`. -/
def categoriesObj (l : List Category) : Json :=
  .obj ((categoriesByType l).map (fun c => (toString c.id, Json.str c.type)))

/-- An exception in flight: either a Flask `abort(code, description=...)`
(an `HTTPException`) or any other Python/storage error (`TypeError`,
`KeyError`, `AttributeError`, a database error, ...). Both are subclasses of
`Exception`, so a broad `except` catches both. -/
inductive PyExc where
  | httpAbort (code : Nat) (description : Option String)
  | pyError
deriving DecidableEq

/-- An HTTP response: status code plus JSON body. -/
structure Response where
  status : Nat
  body : Json

/-- The error envelope every registered error handler returns. -/
def errEnvelope (code : Nat) (msg : String) : Json :=
  .obj [("success", .bool false), ("error", .num code), ("message", .str msg)]

/-- The `@app.errorhandler(404)` response: message from the abort's
description when present, else "resource not found". -/
def notFoundResp (msg : String) : Response := ⟨404, errEnvelope 404 msg⟩

/-- The `@app.errorhandler(422)` response: the message is always the literal
"unprocessable", whatever description the abort carried. -/
def unprocessableResp : Response := ⟨422, errEnvelope 422 "unprocessable"⟩

/-- The `@app.errorhandler(400)` response: message from the abort's
description when present, else "bad request". -/
def badRequestResp (msg : String) : Response := ⟨400, errEnvelope 400 msg⟩

/-- What the client ultimately sees: a handled JSON response, or an exception
that escaped every handler (Flask's non-JSON 500 page). -/
inductive Outcome where
  | resp (r : Response)
  | uncaught

/-- Dispatch of an exception that reaches Flask itself: `abort(400/404/422)`
hits the matching registered error handler; anything else has no JSON
handler and escapes. -/
def handleExc : PyExc → Outcome
  | .httpAbort 400 d => .resp (badRequestResp (d.getD "bad request"))
  | .httpAbort 404 d => .resp (notFoundResp (d.getD "resource not found"))
  | .httpAbort 422 _ => .resp unprocessableResp
  | _ => .uncaught

/-- Python's `key in value` on a parsed JSON value: key membership for a
dict, element equality for a list, substring test for a string, and a
`TypeError` for anything else. -/
def jsonHasKey (j : Json) (k : String) : Except PyExc Bool :=
  match j with
  | .obj fields => .ok (fields.any (fun kv => kv.1 == k))
  | .arr elems => .ok (elems.any (fun e => match e with | .str s => s == k | _ => false))
  | .str s => .ok (strContains k s)
  | _ => .error .pyError

/-- Python's `value[k]` on a parsed JSON value: dict lookup (`KeyError` when
absent), `TypeError` otherwise. -/
def jsonIndex (j : Json) (k : String) : Except PyExc Json :=
  match j with
  | .obj fields =>
    (match jLookup fields k with
     | some v => .ok v
     | none => .error .pyError)
  | _ => .error .pyError

/-- Python's `int(x)` on a parsed JSON value: ints pass through, numeric
strings parse, booleans coerce, anything else raises. -/
def pyInt (j : Json) : Except PyExc Int :=
  match j with
  | .num n => .ok n
  | .str s =>
    (match pyIntString? s with
     | some n => .ok n
     | none => .error .pyError)
  | .bool b => .ok (if b then 1 else 0)
  | _ => .error .pyError

/-- A JSON value usable where the code calls a `str` method on it
(`.strip()`): anything but a string raises `AttributeError`. -/
def pyStr (j : Json) : Except PyExc String :=
  match j with
  | .str s => .ok s
  | _ => .error .pyError

/-- Elementwise integer extraction for `pyIntList`. -/
def pyIntListAux : List Json → Except PyExc (List Int)
  | [] => .ok []
  | .num n :: rest => (pyIntListAux rest).map (fun ns => n :: ns)
  | _ :: _ => .error .pyError

/-- A JSON value handed to `Question.id.notin_(...)`: must be a list of
integers for the integer-column comparison to succeed. -/
def pyIntList (j : Json) : Except PyExc (List Int) :=
  match j with
  | .arr elems => pyIntListAux elems
  | _ => .error .pyError

/-- `QUESTIONS_PER_PAGE = 10`. -/
def QUESTIONS_PER_PAGE : Nat := 10

/-- `request.args.get("page", 1, type=int)`: absent or non-numeric page
parameter falls back to the default 1; otherwise Python `int` parsing. -/
def getPageArg (arg : Option String) : Int :=
  match arg with
  | none => 1
  | some s => (pyIntString? s).getD 1

/-- `paginate_questions(request, selection)`: compute the slice bounds from
the page parameter, format every question, and slice the formatted list. -/
def paginate_questions (pageArg : Option String) (selection : List Question) : List Json :=
  let page := getPageArg pageArg
  let start := (page - 1) * (QUESTIONS_PER_PAGE : Int)
  let stop := start + (QUESTIONS_PER_PAGE : Int)
  let questions := selection.map Question.format
  pythonSlice questions start stop

/-- The `try:` body of `GET /categories`: fetch the type-ordered category
rows and answer 200 with the id-to-type mapping. No emptiness check exists,
so the body never aborts. -/
def retrieve_categories_try (s : Store) : Except PyExc Response :=
  .ok ⟨200, .obj [("success", .bool true), ("categories", categoriesObj s.categories)]⟩

/-- `GET /categories`: the `except Exception` clause rewrites any failure to
`abort(404, description="resource not found")`. -/
def retrieve_categories (s : Store) : Outcome :=
  match retrieve_categories_try s with
  | .ok r => .resp r
  | .error _ => handleExc (.httpAbort 404 (some "resource not found"))

/-- The `try:` body of `GET /questions`: all questions ordered by id, the
current page via `paginate_questions`, the category mapping; an empty page
aborts 404, otherwise 200 with the page and the unpaginated total. -/
def retrieve_questions_try (s : Store) (pageArg : Option String) : Except PyExc Response :=
  let selection := questionsById s.questions
  let current_questions := paginate_questions pageArg selection
  if current_questions.length == 0 then
    .error (.httpAbort 404 (some "resource not found"))
  else
    .ok ⟨200, .obj [("success", .bool true),
                    ("questions", .arr current_questions),
                    ("total_questions", .num selection.length),
                    ("categories", categoriesObj s.categories),
                    ("current_category", .null)]⟩

/-- `GET /questions`: the `except Exception` clause rewrites any failure —
including the deliberate empty-page abort — to the same 404. -/
def retrieve_questions (s : Store) (pageArg : Option String) : Outcome :=
  match retrieve_questions_try s pageArg with
  | .ok r => .resp r
  | .error _ => handleExc (.httpAbort 404 (some "resource not found"))

/-- The `try:` body of `DELETE /questions/<question_id>`:
`Question.query.get` coerces the path string to the integer key (raising on
a non-numeric id), a missing row aborts 404 "Question not found", and a
found row is deleted before answering 200 with the path-captured id. -/
def delete_question_try (s : Store) (question_id : String) : Except PyExc (Store × Response) :=
  match pyIntString? question_id with
  | none => .error .pyError
  | some key =>
    match s.questions.find? (fun q => (q.id : Int) == key) with
    | none => .error (.httpAbort 404 (some "Question not found"))
    | some _ =>
      let s' : Store := { s with questions := s.questions.filter (fun q => (q.id : Int) != key) }
      .ok (s', ⟨200, .obj [("success", .bool true), ("deleted", .str question_id)]⟩)

/-- `DELETE /questions/<question_id>`: `except BaseException: abort(422)`
swallows every exception — the missing-row 404 included — into a 422. -/
def delete_question (s : Store) (question_id : String) : Store × Outcome :=
  match delete_question_try s question_id with
  | .ok (s', r) => (s', .resp r)
  | .error _ => (s, handleExc (.httpAbort 422 none))

/-- The next auto-assigned primary key for an insert. -/
def nextQuestionId (s : Store) : Nat :=
  s.questions.foldr (fun q acc => max acc (q.id + 1)) 1

/-- The `try:` body of `POST /questions`: require the four keys (else
`abort(400, "Missing required fields")`), read them, require non-blank
question and answer after stripping (else the second 400 abort), coerce
`difficulty` and `category` with `int(...)` and insert; 201 on success.
The stored `category` column is the string form of the coerced integer. -/
def add_question_try (s : Store) (body : Json) : Except PyExc (Store × Response) :=
  match jsonHasKey body "question", jsonHasKey body "answer",
        jsonHasKey body "difficulty", jsonHasKey body "category" with
  | .ok hq, .ok ha, .ok hd, .ok hc =>
    if !(hq && ha && hd && hc) then
      .error (.httpAbort 400 (some "Missing required fields"))
    else
      match jsonIndex body "question", jsonIndex body "answer",
            jsonIndex body "difficulty", jsonIndex body "category" with
      | .ok vq, .ok va, .ok vd, .ok vc =>
        (match pyStr vq, pyStr va with
         | .ok new_question, .ok new_answer =>
           if pyStrip new_question == "" || pyStrip new_answer == "" then
             .error (.httpAbort 400 (some "Question and Answer cannot be empty or only whitespace"))
           else
             (match pyInt vd, pyInt vc with
              | .ok new_difficulty, .ok new_category =>
                let q : Question :=
                  { id := nextQuestionId s, question := new_question, answer := new_answer,
                    category := toString new_category, difficulty := new_difficulty }
                .ok ({ s with questions := s.questions ++ [q] },
                     ⟨201, .obj [("success", .bool true), ("created", .num q.id)]⟩)
              | .error e, _ => .error e
              | _, .error e => .error e)
         | .error e, _ => .error e
         | _, .error e => .error e)
      | .error e, _, _, _ => .error e
      | _, .error e, _, _ => .error e
      | _, _, .error e, _ => .error e
      | _, _, _, .error e => .error e
  | .error e, _, _, _ => .error e
  | _, .error e, _, _ => .error e
  | _, _, .error e, _ => .error e
  | _, _, _, .error e => .error e

/-- `POST /questions`: the `except Exception` clause rewrites every failure —
both 400 validation aborts included — to `abort(422)`, whose handler always
answers 422 "unprocessable". -/
def add_question (s : Store) (body : Json) : Store × Outcome :=
  match add_question_try s body with
  | .ok (s', r) => (s', .resp r)
  | .error _ => (s, handleExc (.httpAbort 422 (some "Unprocessable request")))

/-- `POST /questions/search`: the body is read and stripped *before* the
`try:` block — `data.get` on a non-dict body or `.strip()` on a non-string
term raises with no enclosing handler (`Outcome.uncaught`). An empty
stripped term aborts 400 (also outside the `try:`); otherwise the `ILIKE`
filter runs inside the `try:` and both the empty and non-empty result sets
answer 200. -/
def search_questions (s : Store) (body : Json) : Outcome :=
  match body with
  | .obj fields =>
    (match (jLookup fields "searchTerm").getD (.str "") with
     | .str raw =>
       let search_term := pyStrip raw
       if search_term == "" then
         handleExc (.httpAbort 400 (some "Search term is required"))
       else
         let results := s.questions.filter (fun q => ilikeContains search_term q.question)
         if results.isEmpty then
           .resp ⟨200, .obj [("success", .bool true), ("questions", .arr []),
                             ("total_questions", .num 0)]⟩
         else
           .resp ⟨200, .obj [("success", .bool true),
                             ("questions", .arr (results.map Question.format)),
                             ("total_questions", .num results.length)]⟩
     | _ => .uncaught
    )
  | _ => .uncaught

/-- The `try:` body of `POST /quizzes`: read `quiz_category` and
`previous_questions` from the dict, branch on `quiz_category["type"] ==
"click"`, filter the questions table, and pick the index the random oracle
returns (`random.randrange(0, len(...))`) when candidates exist, else answer
`question: null`. The non-click branch compares the `String` category column
against `quiz_category["id"]`, so a non-string id raises at the store. -/
def play_quiz_try (rand : Nat → Nat) (s : Store) (body : Json) : Except PyExc Response :=
  match body with
  | .obj fields =>
    let category := (jLookup fields "quiz_category").getD .null
    let previous := (jLookup fields "previous_questions").getD .null
    (match jsonIndex category "type" with
     | .error e => .error e
     | .ok catType =>
       (match pyIntList previous with
        | .error e => .error e
        | .ok previous_questions =>
          (match
             (match catType with
              | .str t =>
                if t == "click" then
                  .ok (s.questions.filter (fun q => !(previous_questions.contains (q.id : Int))))
                else
                  (match jsonIndex category "id" with
                   | .error e => .error e
                   | .ok (.str cid) =>
                     .ok (s.questions.filter
                       (fun q => q.category == cid && !(previous_questions.contains (q.id : Int))))
                   | .ok _ => .error .pyError)
              | _ =>
                (match jsonIndex category "id" with
                 | .error e => .error e
                 | .ok (.str cid) =>
                   .ok (s.questions.filter
                     (fun q => q.category == cid && !(previous_questions.contains (q.id : Int))))
                 | .ok _ => .error .pyError)
             : Except PyExc (List Question)) with
           | .error e => .error e
           | .ok available_questions =>
             if available_questions.length > 0 then
               (match available_questions[rand available_questions.length]? with
                | some q => .ok ⟨200, .obj [("success", .bool true), ("question", q.format)]⟩
                | none => .error .pyError)
             else
               .ok ⟨200, .obj [("success", .bool true), ("question", .null)]⟩)))
  | _ => .error .pyError

/-- `POST /quizzes`: the two `in body` membership checks run *before* the
`try:` block (a body supporting no membership test raises uncaught); a
missing key aborts 404 with the endpoint's message; everything inside the
`try:` is swallowed into `abort(422)` by `except BaseException`. -/
def play_quiz (rand : Nat → Nat) (s : Store) (body : Json) : Outcome :=
  match jsonHasKey body "quiz_category", jsonHasKey body "previous_questions" with
  | .ok hc, .ok hp =>
    if !(hc && hp) then
      handleExc (.httpAbort 404 (some "quiz_category and previous_question is required"))
    else
      (match play_quiz_try rand s body with
       | .ok r => .resp r
       | .error _ => handleExc (.httpAbort 422 none))
  | _, _ => .uncaught

/-- A parsed request to one of the six modelled routes. -/
inductive Request where
  | getCategories
  | getQuestions (pageArg : Option String)
  | deleteQuestion (question_id : String)
  | postQuestion (body : Json)
  | searchQuestions (body : Json)
  | postQuiz (body : Json)

/-- Route dispatch: the whole app as one function from the random oracle,
the storage snapshot and the request to the next snapshot and the outcome. -/
def handleRequest (rand : Nat → Nat) (s : Store) : Request → Store × Outcome
  | .getCategories => (s, retrieve_categories s)
  | .getQuestions pageArg => (s, retrieve_questions s pageArg)
  | .deleteQuestion question_id => delete_question s question_id
  | .postQuestion body => add_question s body
  | .searchQuestions body => (s, search_questions s body)
  | .postQuiz body => (s, play_quiz rand s body)

/-- The bytes the client receives for an outcome: the serialised JSON body
for a handled response, none for an uncaught exception (Flask's default
non-JSON error page). -/
def outcomeBytes : Outcome → Option String
  | .resp r => some (renderJson r.body)
  | .uncaught => none

/-- A store with one sample question, used to instantiate theorems with
hypotheses at a concrete input. -/
def sampleQuestion : Question :=
  { id := 3, question := "What?", answer := "This.", category := "1", difficulty := 2 }

/-- A second sample question. -/
def sampleQuestion2 : Question :=
  { id := 7, question := "Who?", answer := "Me.", category := "2", difficulty := 1 }

/-- A sample storage snapshot. -/
def sampleStore : Store :=
  { questions := [sampleQuestion, sampleQuestion2],
    categories := [⟨1, "Science"⟩, ⟨2, "Art"⟩] }

lemma pythonSlice_nonneg {α : Type _} (l : List α) (a b : Int) (ha : 0 ≤ a) (hab : a ≤ b) :
    pythonSlice l a b = (l.drop a.toNat).take (b - a).toNat := by
  unfold pythonSlice
  have ha' : ¬ a < 0 := by omega
  have hb' : ¬ b < 0 := by omega
  simp only [ha', hb', if_false]
  rcases le_or_lt a (l.length : Int) with han | han
  · rw [min_eq_left han]
    rcases le_or_lt b (l.length : Int) with hbn | hbn
    · rw [min_eq_left hbn]
    · rw [min_eq_right hbn.le, List.take_eq_take]
      simp only [List.length_drop]
      omega
  · rw [min_eq_right han.le]
    have h1 : l.drop ((l.length : Int)).toNat = [] := by simp
    have h2 : l.drop a.toNat = [] := List.drop_eq_nil_of_le (by omega)
    rw [h1, h2, List.take_nil, List.take_nil]

lemma pythonSlice_page_zero {α : Type _} (l : List α) : pythonSlice l (-10) 0 = [] := by
  unfold pythonSlice
  have h1 : ((-10 : Int) < 0) := by norm_num
  have h2 : ¬ ((0 : Int) < 0) := by norm_num
  simp only [h1, h2, if_true, if_false]
  have hn : (0 : Int) ≤ (l.length : Int) := by positivity
  rw [min_eq_left hn]
  have hmax : (0 : Int) ≤ max ((l.length : Int) + -10) 0 := le_max_right _ _
  have h0 : ((0 : Int) - max ((l.length : Int) + -10) 0).toNat = 0 :=
    Int.toNat_of_nonpos (by omega)
  rw [h0, List.take_zero]

/-- Eleven questions, enough for a `page=-1` slice to be non-empty. -/
def elevenQuestions : List Question :=
  (List.range 11).map (fun i => { id := i, question := "q", answer := "a", category := "1", difficulty := 1 })

lemma length_pythonSlice_neg {α : Type _} (l : List α) (hn : 11 ≤ l.length) :
    (pythonSlice l (-20) (-10)).length = min 10 (l.length - 10) := by
  unfold pythonSlice
  have h1 : ((-20 : Int) < 0) := by norm_num
  have h2 : ((-10 : Int) < 0) := by norm_num
  simp only [h1, h2, if_true]
  rcases le_total ((l.length : Int) + -20) 0 with h | h
  · rw [max_eq_right h, max_eq_left (by omega)]
    simp only [List.length_take, List.length_drop]
    omega
  · rw [max_eq_left h, max_eq_left (by omega)]
    simp only [List.length_take, List.length_drop]
    omega


lemma paginate_eq_drop_take (pageArg : Option String) (selection : List Question)
    (hp : 1 ≤ getPageArg pageArg) :
    paginate_questions pageArg selection =
      ((selection.map Question.format).drop ((getPageArg pageArg - 1) * 10).toNat).take 10 := by
  show pythonSlice (selection.map Question.format)
      ((getPageArg pageArg - 1) * ((QUESTIONS_PER_PAGE : Nat) : Int))
      ((getPageArg pageArg - 1) * ((QUESTIONS_PER_PAGE : Nat) : Int) + ((QUESTIONS_PER_PAGE : Nat) : Int)) = _
  have hten : ((QUESTIONS_PER_PAGE : Nat) : Int) = 10 := by norm_num [QUESTIONS_PER_PAGE]
  rw [hten, pythonSlice_nonneg _ _ _ (by omega) (by omega)]
  have h10 : ((getPageArg pageArg - 1) * 10 + 10 - (getPageArg pageArg - 1) * 10).toNat = 10 := by
    omega
  rw [h10]

lemma length_questionsById (l : List Question) : (questionsById l).length = l.length :=
  (List.perm_insertionSort _ l).length_eq

/-- C8: the pagination helper is pure: a page number `p` (defaulting to 1
when the parameter is absent or non-numeric) selects exactly the sub-list of
formatted items at offsets `(p-1)*10` through `(p-1)*10+10`, and a page past
the end of the list yields the empty list. -/
theorem C8_paginate_pure :
    getPageArg none = 1 ∧
    (∀ s : String, pyIntString? s = none → getPageArg (some s) = 1) ∧
    (∀ (pageArg : Option String) (selection : List Question),
      1 ≤ getPageArg pageArg →
        (paginate_questions pageArg selection =
          ((selection.map Question.format).drop ((getPageArg pageArg - 1) * 10).toNat).take 10) ∧
        ((selection.map Question.format).length ≤ ((getPageArg pageArg - 1) * 10).toNat →
          paginate_questions pageArg selection = [])) := by
  refine ⟨rfl, ?_, ?_⟩
  · intro s hs
    simp [getPageArg, hs]
  · intro pageArg selection hp
    have h1 := paginate_eq_drop_take pageArg selection hp
    refine ⟨h1, fun hlen => ?_⟩
    rw [h1, List.drop_eq_nil_of_le hlen, List.take_nil]

/-- C8 witness: instantiation at a non-numeric page parameter and at a page
past the end of a concrete two-question list. -/
theorem C8_paginate_pure_witness :
    getPageArg (some "xyz") = 1 ∧ paginate_questions (some "3") sampleStore.questions = [] :=
  ⟨C8_paginate_pure.2.1 "xyz" (by decide),
   (C8_paginate_pure.2.2 (some "3") sampleStore.questions (by decide)).2 (by decide)⟩

lemma getPageArg_zero : getPageArg (some "0") = 0 := by decide

lemma getPageArg_neg_one : getPageArg (some "-1") = -1 := by decide

/-- C10: a non-positive page parameter hits Python's negative-index slicing:
page 0 always yields the empty list (so `GET /questions?page=0` is always a
404), while page -1 slices relative to the end of the list and is non-empty
as soon as at least 11 questions exist. -/
theorem C10_nonpositive_pages :
    (∀ selection : List Question, paginate_questions (some "0") selection = []) ∧
    (∀ s : Store, retrieve_questions s (some "0") = .resp (notFoundResp "resource not found")) ∧
    (∀ selection : List Question,
      paginate_questions (some "-1") selection =
        pythonSlice (selection.map Question.format) (-20) (-10)) ∧
    (∀ selection : List Question, 11 ≤ selection.length →
      paginate_questions (some "-1") selection ≠ []) ∧
    (∀ selection : List Question, 20 ≤ selection.length →
      paginate_questions (some "-1") selection =
        ((selection.map Question.format).drop (selection.length - 20)).take 10) := by
  have hzero : ∀ selection : List Question, paginate_questions (some "0") selection = [] := by
    intro selection
    show pythonSlice (selection.map Question.format)
        ((getPageArg (some "0") - 1) * ((QUESTIONS_PER_PAGE : Nat) : Int))
        ((getPageArg (some "0") - 1) * ((QUESTIONS_PER_PAGE : Nat) : Int) + ((QUESTIONS_PER_PAGE : Nat) : Int)) = _
    rw [getPageArg_zero]
    norm_num [QUESTIONS_PER_PAGE]
    exact pythonSlice_page_zero _
  have hneg : ∀ selection : List Question,
      paginate_questions (some "-1") selection =
        pythonSlice (selection.map Question.format) (-20) (-10) := by
    intro selection
    show pythonSlice (selection.map Question.format)
        ((getPageArg (some "-1") - 1) * ((QUESTIONS_PER_PAGE : Nat) : Int))
        ((getPageArg (some "-1") - 1) * ((QUESTIONS_PER_PAGE : Nat) : Int) + ((QUESTIONS_PER_PAGE : Nat) : Int)) = _
    rw [getPageArg_neg_one]
    norm_num [QUESTIONS_PER_PAGE]
  refine ⟨hzero, ?_, hneg, ?_, ?_⟩
  · intro s
    unfold retrieve_questions retrieve_questions_try
    simp only [hzero, List.length_nil, beq_self_eq_true, if_true]
    rfl
  · intro selection hlen
    rw [hneg]
    intro hempty
    have hl := congrArg List.length hempty
    rw [length_pythonSlice_neg _ (by simpa using hlen)] at hl
    simp only [List.length_map, List.length_nil] at hl
    omega
  · intro selection hlen
    rw [hneg]
    unfold pythonSlice
    have h1 : ((-20 : Int) < 0) := by norm_num
    have h2 : ((-10 : Int) < 0) := by norm_num
    simp only [h1, h2, if_true, List.length_map]
    rw [max_eq_left (by omega : (0:Int) ≤ (selection.length : Int) + -20),
        max_eq_left (by omega : (0:Int) ≤ (selection.length : Int) + -10)]
    have hc : ((selection.length : Int) + -10 - ((selection.length : Int) + -20)).toNat = 10 := by omega
    have hs : ((selection.length : Int) + -20).toNat = selection.length - 20 := by omega
    rw [hc, hs]

/-- C10 witness: the three hypotheses discharged on an explicit store and an
explicit eleven-question list. -/
theorem C10_nonpositive_pages_witness :
    retrieve_questions sampleStore (some "0") = .resp (notFoundResp "resource not found") ∧
    11 ≤ elevenQuestions.length ∧ paginate_questions (some "-1") elevenQuestions ≠ [] :=
  ⟨C10_nonpositive_pages.2.1 sampleStore, by decide,
   C10_nonpositive_pages.2.2.2.1 elevenQuestions (by decide)⟩

/-- C1: evaluation at the failing input of the claim. With zero stored
categories, `GET /categories` does *not* answer 404 "resource not found" as
the claim (and the handler's own docstring) states: the handler has no
emptiness check, so the query succeeds with an empty list and the response
is 200 with an empty `categories` mapping. -/
theorem C1_empty_categories_returns_200 :
    retrieve_categories { questions := [], categories := [] } =
      .resp ⟨200, .obj [("success", .bool true), ("categories", .obj [])]⟩ := rfl

/-- C9: `GET /categories` and `GET /questions` are deterministic — the
outcome of the dispatcher, and hence the serialised response body, does not
depend on the process's only source of nondeterminism (the random oracle):
two executions against the same storage snapshot with the same arguments
produce equal outcomes and byte-identical bodies. -/
theorem C9_get_determinism :
    ∀ (rand1 rand2 : Nat → Nat) (s : Store) (pageArg : Option String),
      handleRequest rand1 s .getCategories = handleRequest rand2 s .getCategories ∧
      outcomeBytes (handleRequest rand1 s .getCategories).2 =
        outcomeBytes (handleRequest rand2 s .getCategories).2 ∧
      handleRequest rand1 s (.getQuestions pageArg) = handleRequest rand2 s (.getQuestions pageArg) ∧
      outcomeBytes (handleRequest rand1 s (.getQuestions pageArg)).2 =
        outcomeBytes (handleRequest rand2 s (.getQuestions pageArg)).2 :=
  fun _ _ _ _ => ⟨rfl, rfl, rfl, rfl⟩

/-- C3: `DELETE /questions/{id}` answers 422 "unprocessable" (not 404)
whenever no row with that id exists — the in-flow 404 abort is swallowed by
`except BaseException` — and answers 200 with `{success: true, deleted: id}`
for an existing id, removing exactly the rows with that id. -/
theorem C3_delete_question :
    ∀ (s : Store) (question_id : String),
      (pyIntString? question_id = none →
        delete_question s question_id = (s, .resp unprocessableResp)) ∧
      (∀ key : Int, pyIntString? question_id = some key →
        (s.questions.find? (fun q => (q.id : Int) == key) = none →
          delete_question s question_id = (s, .resp unprocessableResp)) ∧
        (∀ q, s.questions.find? (fun q => (q.id : Int) == key) = some q →
          delete_question s question_id =
            ({ s with questions := s.questions.filter (fun q => (q.id : Int) != key) },
             .resp ⟨200, .obj [("success", .bool true), ("deleted", .str question_id)]⟩) ∧
          ∀ q' ∈ s.questions.filter (fun q => (q.id : Int) != key), (q'.id : Int) ≠ key)) := by
  intro s question_id
  constructor
  · intro hparse
    simp only [delete_question, delete_question_try, hparse]
    rfl
  · intro key hparse
    constructor
    · intro hfind
      simp only [delete_question, delete_question_try, hparse, hfind]
      rfl
    · intro q hfind
      constructor
      · simp only [delete_question, delete_question_try, hparse, hfind]
      · intro q' hq'
        rw [List.mem_filter] at hq'
        simpa using hq'.2

/-- C3 witness: both branches discharged on the concrete sample store —
id 99 is absent (422 "unprocessable"), id 3 is present (200, row removed). -/
theorem C3_delete_question_witness :
    pyIntString? "99" = some 99 ∧
    sampleStore.questions.find? (fun q => (q.id : Int) == 99) = none ∧
    delete_question sampleStore "99" = (sampleStore, .resp unprocessableResp) ∧
    delete_question sampleStore "3" =
      ({ sampleStore with questions := sampleStore.questions.filter (fun q => (q.id : Int) != 3) },
       .resp ⟨200, .obj [("success", .bool true), ("deleted", .str "3")]⟩) :=
  ⟨by decide, by decide,
   ((C3_delete_question sampleStore "99").2 99 (by decide)).1 (by decide),
   (((C3_delete_question sampleStore "3").2 3 (by decide)).2 sampleQuestion (by decide)).1⟩

/-- C5: `GET /questions` with a page `p ≥ 1` answers 200 with exactly
`min(10, remaining)` formatted questions starting at offset `(p-1)*10` of
the id-ordered question list and with `total_questions` equal to the full
unpaginated count; an empty page — a page past the end included — answers
404 "resource not found". -/
theorem C5_retrieve_questions :
    ∀ (s : Store) (pageArg : Option String),
      1 ≤ getPageArg pageArg →
      ((((getPageArg pageArg - 1) * 10).toNat < ((questionsById s.questions).map Question.format).length →
        retrieve_questions s pageArg =
          .resp ⟨200, .obj [("success", .bool true),
                            ("questions", .arr ((((questionsById s.questions).map Question.format).drop
                              ((getPageArg pageArg - 1) * 10).toNat).take 10)),
                            ("total_questions", .num s.questions.length),
                            ("categories", categoriesObj s.categories),
                            ("current_category", .null)]⟩ ∧
        ((((questionsById s.questions).map Question.format).drop ((getPageArg pageArg - 1) * 10).toNat).take 10).length =
          min 10 (((questionsById s.questions).map Question.format).length - ((getPageArg pageArg - 1) * 10).toNat)) ∧
      (((questionsById s.questions).map Question.format).length ≤ ((getPageArg pageArg - 1) * 10).toNat →
        retrieve_questions s pageArg = .resp (notFoundResp "resource not found"))) := by
  intro s pageArg hp
  have hpag := paginate_eq_drop_take pageArg (questionsById s.questions) hp
  have hlenpage : ((((questionsById s.questions).map Question.format).drop
      ((getPageArg pageArg - 1) * 10).toNat).take 10).length =
      min 10 (((questionsById s.questions).map Question.format).length -
        ((getPageArg pageArg - 1) * 10).toNat) := by
    simp [List.length_take, List.length_drop]
  constructor
  · intro hlt
    refine ⟨?_, hlenpage⟩
    have hne : ¬ ((paginate_questions pageArg (questionsById s.questions)).length = 0) := by
      rw [hpag, hlenpage]
      omega
    simp only [retrieve_questions, retrieve_questions_try, beq_iff_eq, if_neg hne]
    rw [hpag, length_questionsById]
  · intro hge
    have hz : paginate_questions pageArg (questionsById s.questions) = [] := by
      rw [hpag, List.drop_eq_nil_of_le hge, List.take_nil]
    simp only [retrieve_questions, retrieve_questions_try, hz, List.length_nil,
      beq_self_eq_true, if_true]
    rfl

/-- C5 witness: the default page on the two-question sample store answers
200, and page 1000 answers 404 "resource not found". -/
theorem C5_retrieve_questions_witness :
    retrieve_questions sampleStore none =
      .resp ⟨200, .obj [("success", .bool true),
                        ("questions", .arr ((((questionsById sampleStore.questions).map Question.format).drop
                          ((getPageArg none - 1) * 10).toNat).take 10)),
                        ("total_questions", .num sampleStore.questions.length),
                        ("categories", categoriesObj sampleStore.categories),
                        ("current_category", .null)]⟩ ∧
    retrieve_questions sampleStore (some "1000") = .resp (notFoundResp "resource not found") :=
  ⟨((C5_retrieve_questions sampleStore none (by decide)).1 (by decide)).1,
   (C5_retrieve_questions sampleStore (some "1000") (by decide)).2 (by decide)⟩

lemma jLookup_isSome_of_any {fields : List (String × Json)} {k : String}
    (h : fields.any (fun kv => kv.1 == k) = true) : ∃ v, jLookup fields k = some v := by
  induction fields with
  | nil => simp at h
  | cons kv rest ih =>
    by_cases hk : kv.1 == k
    · exact ⟨kv.2, by simp [jLookup, hk]⟩
    · simp only [List.any_cons, hk, Bool.false_or] at h
      obtain ⟨v, hv⟩ := ih h
      exact ⟨v, by simp [jLookup, hk, hv]⟩

/-- C2 counterexample: the claim says a body missing `category` is answered
400 "Missing required fields" and a blank question is answered 400
"Question and Answer cannot be empty or only whitespace"; at these concrete
inputs the code answers 422 "unprocessable" instead (the 400 aborts are
raised inside the broad `try/except Exception`, which rewrites them to
`abort(422)`), so both responses carry status 422, not 400. -/
theorem C2_add_question_counterexample :
    add_question { questions := [], categories := [] }
        (.obj [("question", .str "q"), ("answer", .str "a"), ("difficulty", .num 1)]) =
      ({ questions := [], categories := [] }, .resp unprocessableResp) ∧
    add_question { questions := [], categories := [] }
        (.obj [("question", .str "  "), ("answer", .str "a"), ("difficulty", .num 1),
               ("category", .num 1)]) =
      ({ questions := [], categories := [] }, .resp unprocessableResp) ∧
    unprocessableResp.status = 422 ∧
    unprocessableResp.body = errEnvelope 422 "unprocessable" :=
  ⟨rfl, rfl, rfl, rfl⟩

/-- C2 amended: both validation failures of `POST /questions` surface as
422 "unprocessable": a JSON-object body missing at least one of the keys
`question`, `answer`, `difficulty`, `category`, and a body whose `question`
or `answer` value is empty after trimming whitespace. In both cases the
store is unchanged. -/
theorem C2_add_question_amended :
    ∀ (s : Store) (fields : List (String × Json)),
      ((fields.any (fun kv => kv.1 == "question") && fields.any (fun kv => kv.1 == "answer") &&
        fields.any (fun kv => kv.1 == "difficulty") && fields.any (fun kv => kv.1 == "category")) = false →
        add_question s (.obj fields) = (s, .resp unprocessableResp)) ∧
      (∀ qv av : String,
        (fields.any (fun kv => kv.1 == "question") && fields.any (fun kv => kv.1 == "answer") &&
         fields.any (fun kv => kv.1 == "difficulty") && fields.any (fun kv => kv.1 == "category")) = true →
        jLookup fields "question" = some (.str qv) →
        jLookup fields "answer" = some (.str av) →
        (pyStrip qv == "" || pyStrip av == "") = true →
        add_question s (.obj fields) = (s, .resp unprocessableResp)) := by
  intro s fields
  constructor
  · intro hmiss
    simp only [add_question, add_question_try, jsonHasKey, hmiss, Bool.not_false, if_true]
    rfl
  · intro qv av hall hq ha hblank
    have hd : fields.any (fun kv => kv.1 == "difficulty") = true := by
      simp only [Bool.and_eq_true] at hall
      exact hall.1.2
    have hc : fields.any (fun kv => kv.1 == "category") = true := by
      simp only [Bool.and_eq_true] at hall
      exact hall.2
    obtain ⟨vd, hvd⟩ := jLookup_isSome_of_any hd
    obtain ⟨vc, hvc⟩ := jLookup_isSome_of_any hc
    simp only [add_question, add_question_try, jsonHasKey, hall, Bool.not_true, Bool.false_eq_true,
      if_false, jsonIndex, hq, ha, hvd, hvc, pyStr, hblank, if_true]
    rfl

/-- C2 witness: the amended theorem discharged at a concrete body missing
`category` and at a concrete body with a whitespace-only question. -/
theorem C2_add_question_amended_witness :
    add_question sampleStore (.obj [("question", .str "q"), ("answer", .str "a"),
        ("difficulty", .num 1)]) = (sampleStore, .resp unprocessableResp) ∧
    add_question sampleStore (.obj [("question", .str " \t"), ("answer", .str "a"),
        ("difficulty", .num 1), ("category", .num 1)]) = (sampleStore, .resp unprocessableResp) :=
  ⟨(C2_add_question_amended sampleStore _).1 (by decide),
   (C2_add_question_amended sampleStore _).2 " \t" "a" (by decide) rfl rfl (by decide)⟩

/-- C7 counterexample: the claim says the 200 response contains exactly the
questions whose text contains the term as a case-insensitive substring; but
the code interpolates the raw term into an `ILIKE` pattern, so a term made
of the wildcard `_` matches the question "ab" — which does not contain `_`
as a substring at all — and is returned. -/
theorem C7_search_counterexample :
    search_questions
        { questions := [{ id := 1, question := "ab", answer := "x", category := "1", difficulty := 1 }],
          categories := [] }
        (.obj [("searchTerm", .str "_")]) =
      .resp ⟨200, .obj [("success", .bool true),
                        ("questions", .arr [Question.format
                          { id := 1, question := "ab", answer := "x", category := "1", difficulty := 1 }]),
                        ("total_questions", .num 1)]⟩ ∧
    specContainsCI "_" "ab" = false :=
  ⟨rfl, rfl⟩

/-- C7 amended: a body whose `searchTerm` is empty after trimming yields 400
"Search term is required"; a non-empty term yields 200 with exactly the
questions whose text matches the SQL pattern `%term%` case-insensitively
(`%` and `_` in the term act as wildcards, backslash escapes) and
`total_questions` equal to the number of matches; zero matches is a success
case with an empty list and `total_questions` 0. -/
theorem C7_search_questions_amended :
    ∀ (s : Store) (fields : List (String × Json)) (raw : String),
      jLookup fields "searchTerm" = some (.str raw) →
      (pyStrip raw = "" →
        search_questions s (.obj fields) = .resp (badRequestResp "Search term is required")) ∧
      (pyStrip raw ≠ "" →
        search_questions s (.obj fields) =
          .resp ⟨200, .obj [("success", .bool true),
                            ("questions", .arr ((s.questions.filter
                              (fun q => ilikeContains (pyStrip raw) q.question)).map Question.format)),
                            ("total_questions", .num (s.questions.filter
                              (fun q => ilikeContains (pyStrip raw) q.question)).length)]⟩) := by
  intro s fields raw hterm
  constructor
  · intro hempty
    simp only [search_questions, hterm, Option.getD_some, hempty]
    rfl
  · intro hne
    have hne' : (pyStrip raw == "") = false := by
      simpa using hne
    simp only [search_questions, hterm, Option.getD_some, hne', Bool.false_eq_true, if_false]
    rcases hres : s.questions.filter (fun q => ilikeContains (pyStrip raw) q.question) with _ | ⟨q, rest⟩
    · simp [hres]
    · simp [hres]

/-- C7 witness: both branches discharged concretely — a whitespace-only term
is a 400, and the term "who" matches exactly the sample question "Who?". -/
theorem C7_search_questions_amended_witness :
    search_questions sampleStore (.obj [("searchTerm", .str "  ")]) =
      .resp (badRequestResp "Search term is required") ∧
    search_questions sampleStore (.obj [("searchTerm", .str "who")]) =
      .resp ⟨200, .obj [("success", .bool true),
                        ("questions", .arr ((sampleStore.questions.filter
                          (fun q => ilikeContains (pyStrip "who") q.question)).map Question.format)),
                        ("total_questions", .num (sampleStore.questions.filter
                          (fun q => ilikeContains (pyStrip "who") q.question)).length)]⟩ :=
  ⟨(C7_search_questions_amended sampleStore [("searchTerm", .str "  ")] "  " rfl).1 rfl,
   (C7_search_questions_amended sampleStore [("searchTerm", .str "who")] "who" rfl).2 (by decide)⟩

lemma pyIntListAux_map_num (prev : List Int) :
    pyIntListAux (prev.map Json.num) = .ok prev := by
  induction prev with
  | nil => rfl
  | cons n ns ih => simp [pyIntListAux, ih, Except.map]

lemma jLookup_any {fields : List (String × Json)} {k : String} {v : Json}
    (h : jLookup fields k = some v) : fields.any (fun kv => kv.1 == k) = true := by
  induction fields with
  | nil => simp [jLookup] at h
  | cons kv rest ih =>
    by_cases hk : kv.1 == k
    · simp [List.any_cons, hk]
    · simp only [jLookup, hk, if_false, Bool.false_eq_true] at h
      simp [List.any_cons, ih h]

/-- The candidate set of `POST /quizzes` as the code computes it: all
questions not previously seen when the sentinel category type "click" was
sent, else the unseen questions of the requested category (the `String`
category column compared against the request's id). -/
def quizCandidates (s : Store) (ty cid : String) (prev : List Int) : List Question :=
  if ty == "click" then
    s.questions.filter (fun q => !(prev.contains (q.id : Int)))
  else
    s.questions.filter (fun q => q.category == cid && !(prev.contains (q.id : Int)))

/-- C6: `POST /quizzes` with both keys present: the candidate set is the
unseen questions of every category when `quiz_category.type` is the sentinel
"click", else the unseen questions whose stored category equals
`quiz_category.id`; whatever index the random oracle picks
(`random.randrange` always returns an in-range index), the answered question
is a formatted member of the candidate set when it is non-empty, and the
answer is `question: null` exactly on the empty candidate set. -/
theorem C6_play_quiz :
    ∀ (s : Store) (ty cid : String) (prev : List Int) (rand : Nat → Nat)
      (fields catFields : List (String × Json)),
      jLookup fields "quiz_category" = some (.obj catFields) →
      jLookup fields "previous_questions" = some (.arr (prev.map Json.num)) →
      jLookup catFields "type" = some (.str ty) →
      jLookup catFields "id" = some (.str cid) →
      (∀ h : rand (quizCandidates s ty cid prev).length < (quizCandidates s ty cid prev).length,
        play_quiz rand s (.obj fields) =
          .resp ⟨200, .obj [("success", .bool true),
                            ("question", Question.format ((quizCandidates s ty cid prev).get
                              ⟨rand (quizCandidates s ty cid prev).length, h⟩))]⟩ ∧
        Question.format ((quizCandidates s ty cid prev).get
            ⟨rand (quizCandidates s ty cid prev).length, h⟩) ∈
          (quizCandidates s ty cid prev).map Question.format) ∧
      (quizCandidates s ty cid prev = [] →
        play_quiz rand s (.obj fields) =
          .resp ⟨200, .obj [("success", .bool true), ("question", .null)]⟩) := by
  intro s ty cid prev rand fields catFields hqc hpq hty hid
  have ha1 := jLookup_any hqc
  have ha2 := jLookup_any hpq
  have hkey : play_quiz rand s (.obj fields) =
      (match play_quiz_try rand s (.obj fields) with
       | .ok r => .resp r
       | .error _ => handleExc (.httpAbort 422 none)) := by
    simp [play_quiz, jsonHasKey, ha1, ha2]
  have htry : play_quiz_try rand s (.obj fields) =
      (if (quizCandidates s ty cid prev).length > 0 then
        (match (quizCandidates s ty cid prev)[rand (quizCandidates s ty cid prev).length]? with
         | some q => .ok ⟨200, .obj [("success", .bool true), ("question", q.format)]⟩
         | none => .error .pyError)
      else
        .ok ⟨200, .obj [("success", .bool true), ("question", .null)]⟩) := by
    by_cases hclick : ty == "click"
    · simp [play_quiz_try, hqc, hpq, jsonIndex, hty, hid, pyIntList, pyIntListAux_map_num,
        quizCandidates, hclick]
    · simp [play_quiz_try, hqc, hpq, jsonIndex, hty, hid, pyIntList, pyIntListAux_map_num,
        quizCandidates, hclick]
  constructor
  · intro h
    have hidx : (quizCandidates s ty cid prev)[rand (quizCandidates s ty cid prev).length]? =
        some ((quizCandidates s ty cid prev).get ⟨rand (quizCandidates s ty cid prev).length, h⟩) := by
      rw [List.getElem?_eq_getElem h]
      rfl
    constructor
    · rw [hkey, htry, if_pos (by omega), hidx]
    · exact List.mem_map_of_mem Question.format (List.get_mem _ _ _)
  · intro hempty
    rw [hkey, htry, hempty]
    simp

/-- C6 witness: the non-click branch discharged on the sample store —
category id "2" with question 3 already seen leaves exactly question 7, and
with both seen the candidate set is empty and `question` is null. -/
theorem C6_play_quiz_witness :
    (quizCandidates sampleStore "Art" "2" [3]).length = 1 ∧
    play_quiz (fun _ => 0) sampleStore
        (.obj [("quiz_category", .obj [("type", .str "Art"), ("id", .str "2")]),
               ("previous_questions", .arr ([(3 : Int)].map Json.num))]) =
      .resp ⟨200, .obj [("success", .bool true),
                        ("question", Question.format ((quizCandidates sampleStore "Art" "2" [3]).get
                          ⟨(fun _ : Nat => 0) (quizCandidates sampleStore "Art" "2" [3]).length, by decide⟩))]⟩ ∧
    play_quiz (fun _ => 0) sampleStore
        (.obj [("quiz_category", .obj [("type", .str "Art"), ("id", .str "2")]),
               ("previous_questions", .arr ([(3 : Int), 7].map Json.num))]) =
      .resp ⟨200, .obj [("success", .bool true), ("question", .null)]⟩ :=
  ⟨by decide,
   ((C6_play_quiz sampleStore "Art" "2" [3] (fun _ => 0)
      [("quiz_category", .obj [("type", .str "Art"), ("id", .str "2")]),
       ("previous_questions", .arr ([(3 : Int)].map Json.num))]
      [("type", .str "Art"), ("id", .str "2")] rfl rfl rfl rfl).1 (by decide)).1,
   (C6_play_quiz sampleStore "Art" "2" [3, 7] (fun _ => 0)
      [("quiz_category", .obj [("type", .str "Art"), ("id", .str "2")]),
       ("previous_questions", .arr ([(3 : Int), 7].map Json.num))]
      [("type", .str "Art"), ("id", .str "2")] rfl rfl rfl rfl).2 (by decide)⟩

lemma retrieve_questions_try_ok {s : Store} {pageArg : Option String} {r : Response}
    (h : retrieve_questions_try s pageArg = .ok r) : r.status = 200 := by
  simp only [retrieve_questions_try] at h
  repeat' split at h
  all_goals first
    | exact Except.noConfusion h
    | (injection h with h2; rw [← h2])

lemma delete_question_try_ok {s : Store} {qid : String} {p : Store × Response}
    (h : delete_question_try s qid = .ok p) : p.2.status = 200 := by
  simp only [delete_question_try] at h
  repeat' split at h
  all_goals first
    | exact Except.noConfusion h
    | (injection h with h2; rw [← h2])

lemma add_question_try_ok {s : Store} {body : Json} {p : Store × Response}
    (h : add_question_try s body = .ok p) : p.2.status = 201 := by
  simp only [add_question_try] at h
  repeat' split at h
  all_goals first
    | exact Except.noConfusion h
    | (injection h with h2; rw [← h2])

lemma play_quiz_try_ok {rand : Nat → Nat} {s : Store} {body : Json} {r : Response}
    (h : play_quiz_try rand s body = .ok r) : r.status = 200 := by
  simp only [play_quiz_try] at h
  repeat' split at h
  all_goals first
    | exact Except.noConfusion h
    | (injection h with h2; rw [← h2])

/-- C4 counterexample: the claim says every exception is caught and
translated to 400/404/422 even when the request body is not an object; but
`search_questions` and `play_quiz` read the body before their `try:` blocks,
so a JSON-number body raises (`AttributeError` on `.get` / `TypeError` on
`in`) with no handler: the outcome is an uncaught exception, not one of the
three JSON error envelopes. -/
theorem C4_uncaught_counterexample :
    search_questions { questions := [], categories := [] } (.num 5) = .uncaught ∧
    play_quiz (fun _ => 0) { questions := [], categories := [] } (.num 5) = .uncaught :=
  ⟨rfl, rfl⟩

/-- The body shapes read *outside* any `try:` block that do not raise:
`search_questions` needs a dict whose `searchTerm`, when present, is a
string (it calls `.get` and `.strip()` before the `try:`); `play_quiz`
needs a dict (it evaluates `in body` before the `try:`). The other routes
touch the body only inside their `try:` blocks. -/
def bodySafe : Request → Prop
  | .searchQuestions (.obj fields) =>
      ∀ v, jLookup fields "searchTerm" = some v → ∃ str, v = .str str
  | .searchQuestions _ => False
  | .postQuiz (.obj _) => True
  | .postQuiz _ => False
  | _ => True

/-- C4 amended: for every modelled route, whenever the parts of the request
body that the handler reads outside its `try:` block are well-shaped
(`bodySafe` — in particular whenever the body is a JSON object with a
string `searchTerm`), the outcome is a handled JSON response whose status
is one of 200, 201, 400, 404, 422; without that restriction the claim fails
as shown by the counterexample. -/
theorem C4_exceptions_translated :
    ∀ (rand : Nat → Nat) (s : Store) (req : Request),
      bodySafe req →
      ∃ r : Response, (handleRequest rand s req).2 = .resp r ∧
        (r.status = 200 ∨ r.status = 201 ∨ r.status = 400 ∨ r.status = 404 ∨ r.status = 422) := by
  intro rand s req hsafe
  cases req with
  | getCategories =>
    exact ⟨_, rfl, Or.inl rfl⟩
  | getQuestions pageArg =>
    cases h : retrieve_questions_try s pageArg with
    | ok r =>
      exact ⟨r, by simp [handleRequest, retrieve_questions, h], Or.inl (retrieve_questions_try_ok h)⟩
    | error e =>
      refine ⟨notFoundResp "resource not found", ?_, by simp [notFoundResp]⟩
      simp [handleRequest, retrieve_questions, h, handleExc]
  | deleteQuestion qid =>
    cases h : delete_question_try s qid with
    | ok p =>
      obtain ⟨s2, r⟩ := p
      exact ⟨r, by simp [handleRequest, delete_question, h],
        Or.inl (by simpa using delete_question_try_ok h)⟩
    | error e =>
      refine ⟨unprocessableResp, ?_, by simp [unprocessableResp]⟩
      simp [handleRequest, delete_question, h, handleExc]
  | postQuestion body =>
    cases h : add_question_try s body with
    | ok p =>
      obtain ⟨s2, r⟩ := p
      exact ⟨r, by simp [handleRequest, add_question, h],
        Or.inr (Or.inl (by simpa using add_question_try_ok h))⟩
    | error e =>
      refine ⟨unprocessableResp, ?_, by simp [unprocessableResp]⟩
      simp [handleRequest, add_question, h, handleExc]
  | searchQuestions body =>
    cases body with
    | obj fields =>
      cases hterm : jLookup fields "searchTerm" with
      | none =>
        refine ⟨badRequestResp "Search term is required", ?_, by simp [badRequestResp]⟩
        have h0 : (pyStrip "" == "") = true := rfl
        simp [handleRequest, search_questions, hterm, h0, handleExc]
      | some v =>
        obtain ⟨str, rfl⟩ := hsafe v hterm
        by_cases hb : (pyStrip str == "") = true
        · refine ⟨badRequestResp "Search term is required", ?_, by simp [badRequestResp]⟩
          simp [handleRequest, search_questions, hterm, hb, handleExc]
        · by_cases hempty : (s.questions.filter
              (fun q => ilikeContains (pyStrip str) q.question)).isEmpty
          · refine ⟨⟨200, .obj [("success", .bool true), ("questions", .arr []),
              ("total_questions", .num 0)]⟩, ?_, Or.inl rfl⟩
            simp only [handleRequest, search_questions, hterm, Option.getD_some, hb,
              Bool.false_eq_true, if_false, hempty, if_true]
          · refine ⟨⟨200, .obj [("success", .bool true),
              ("questions", .arr ((s.questions.filter
                (fun q => ilikeContains (pyStrip str) q.question)).map Question.format)),
              ("total_questions", .num (s.questions.filter
                (fun q => ilikeContains (pyStrip str) q.question)).length)]⟩, ?_, Or.inl rfl⟩
            have hempty' : (s.questions.filter
                (fun q => ilikeContains (pyStrip str) q.question)).isEmpty = false :=
              Bool.eq_false_iff.mpr hempty
            simp only [handleRequest, search_questions, hterm, Option.getD_some, hb,
              Bool.false_eq_true, if_false, hempty', if_true]
    | null => exact hsafe.elim
    | bool b => exact hsafe.elim
    | num n => exact hsafe.elim
    | str st => exact hsafe.elim
    | arr elems => exact hsafe.elim
  | postQuiz body =>
    cases body with
    | obj fields =>
      by_cases hks : (fields.any (fun kv => kv.1 == "quiz_category") &&
          fields.any (fun kv => kv.1 == "previous_questions")) = true
      · cases h : play_quiz_try rand s (.obj fields) with
        | ok r =>
          refine ⟨r, ?_, Or.inl (play_quiz_try_ok h)⟩
          simp [handleRequest, play_quiz, jsonHasKey, hks, h]
        | error e =>
          refine ⟨unprocessableResp, ?_, by simp [unprocessableResp]⟩
          simp [handleRequest, play_quiz, jsonHasKey, hks, h, handleExc]
      · refine ⟨notFoundResp "quiz_category and previous_question is required", ?_,
          by simp [notFoundResp]⟩
        have hks' : (fields.any (fun kv => kv.1 == "quiz_category") &&
            fields.any (fun kv => kv.1 == "previous_questions")) = false :=
          Bool.eq_false_iff.mpr hks
        simp [handleRequest, play_quiz, jsonHasKey, hks', handleExc]
    | null => exact hsafe.elim
    | bool b => exact hsafe.elim
    | num n => exact hsafe.elim
    | str st => exact hsafe.elim
    | arr elems => exact hsafe.elim

/-- C4 witness: the amended theorem discharged at a concrete request
(`GET /categories`, whose `bodySafe` condition is trivial). -/
theorem C4_exceptions_translated_witness :
    ∃ r : Response, (handleRequest (fun _ => 0) sampleStore .getCategories).2 = .resp r ∧
      (r.status = 200 ∨ r.status = 201 ∨ r.status = 400 ∨ r.status = 404 ∨ r.status = 422) :=
  C4_exceptions_translated (fun _ => 0) sampleStore .getCategories trivial
